import Mathlib

/-!
Verification of the secure-partition ingestion engine in `xloader_secure.c`
(XLoader_SecureCopy / XLoader_SecureChunkCopy / XLoader_StartNextChunkCopy /
XLoader_ProcessChecksumPrtn / XLoader_VerifyHashNUpdateNext /
XLoader_CheckNonZeroPpk / XLoader_SetSecureState / XLoader_GetAHWRoT /
XLoader_GetSHWRoT), via a shallow embedding.

Machine integers become `Nat` (the arithmetic below never overflows u32/u64
on the modelled flows; subtractions occur only where the source guarantees
no underflow, and theorems carry explicit hypotheses where this matters).
Hardware interactions (device copy, DMA transfer, SHA3 engine) are modelled
as emitted events or as abstract function parameters; the success paths of
the hardware primitives are assumed where the source merely propagates
their failure codes.
-/

/-! ## Constants

`XLOADER_SHA3_LEN` is the SHA3-384 digest length in bytes.
The remaining numeric constants live in headers that are not part of the
sources at hand (`xloader_secure.h`, `xplmi.h`, `xilpdi.h`); they are
modelled from the spec.  Only their distinctness and relative structure
matter for the theorems below, never their numeric values. -/

/-- SHA3-384 digest length in bytes (the spec's one hash-length: 48). -/
def XLOADER_SHA3_LEN : Nat := 48

/-- Modelled from the spec: the fixed maximum chunk size used by the Copy
Driver (`XLOADER_SECURE_CHUNK_SIZE`, header not in the sources at hand). -/
def XLOADER_SECURE_CHUNK_SIZE : Nat := 0x8000

/-- Modelled from the spec: address of the first fixed scratch region
(`XPLMI_PMCRAM_CHUNK_MEMORY`, header not in the sources at hand). -/
def XPLMI_PMCRAM_CHUNK_MEMORY : Nat := 0xF2008000

/-- Modelled from the spec: address of the second fixed scratch region
(`XPLMI_PMCRAM_CHUNK_MEMORY_1`, header not in the sources at hand). -/
def XPLMI_PMCRAM_CHUNK_MEMORY_1 : Nat := 0xF2010000

/-- Partition-header word length in bytes (`XIH_PRTN_WORD_LEN`, header not
in the sources at hand; the scan loop steps by one word). -/
def XIH_PRTN_WORD_LEN : Nat := 4

/-- Modelled from the spec: flag OR-ed onto a failing status when the
destination scrub itself failed (`XLOADER_SEC_BUF_CLEAR_ERR`). -/
def XLOADER_SEC_BUF_CLEAR_ERR : Nat := 0x80000

/-- Modelled from the spec: flag OR-ed onto a failing status when the
destination scrub succeeded (`XLOADER_SEC_BUF_CLEAR_SUCCESS`). -/
def XLOADER_SEC_BUF_CLEAR_SUCCESS : Nat := 0x40000

/-! ## Root-of-trust secure states and error kinds

The concrete u32 encodings of the secure-state words and of the XLoader
error codes live in headers outside the sources at hand; they are modelled
from the spec as small inductive types (only distinctness of the values is
ever used by the code paths embedded here). -/

/-- Modelled from the spec: the secure-state words
(`XPLMI_RTCFG_SECURESTATE_*`).  Authentication posture uses
`ahwrot`/`emulAhwrot`/`nonsecure`; encryption posture uses
`shwrot`/`emulShwrot`/`nonsecure`. -/
inductive SecState where
  | ahwrot
  | emulAhwrot
  | shwrot
  | emulShwrot
  | nonsecure
deriving DecidableEq, Repr

/-- Result of one invocation of `XLoader_CheckNonZeroPpk`: `XST_SUCCESS`,
`XST_FAILURE`, or `XLOADER_ERR_GLITCH_DETECTED` (code values modelled from
the spec as distinct tags; only distinctness is used). -/
inductive ScanStatus where
  | success
  | failure
  | glitchDetected
deriving DecidableEq, Repr

/-- Modelled from the spec: the fatal error kind raised by
`XLoader_SetSecureState` (`XLOADER_ERR_HWROT_BH_AUTH_NOT_ALLOWED`). -/
inductive SecErr where
  | bhdrAuthNotAllowed
deriving DecidableEq, Repr

/-! ## XLoader_CheckNonZeroPpk (lines 678-706)

The loop scans the PPK hash efuse words from the start offset to the end
offset in steps of one word, breaking at the first non-zero word.  The
post-loop checks then classify the terminating index alone (they overwrite
the loop's status unconditionally):

    if (Index > (END + XIH_PRTN_WORD_LEN))  Status = GLITCH_DETECTED;
    else if (Index < START)                 Status = GLITCH_DETECTED;
    else if (Index <= END)                  Status = XST_SUCCESS;
    else                                    Status = XST_FAILURE;

The scan bounds (`XLOADER_EFUSE_PPK0_START_OFFSET`,
`XLOADER_EFUSE_PPK2_END_OFFSET`) are register addresses from a header not
in the sources at hand, so both functions are parametrised by them. -/

/-- The post-loop classification of the terminating scan index in
`XLoader_CheckNonZeroPpk` (source lines 692-703), as a function of the
scan bounds and the index. -/
def XLoader_CheckNonZeroPpk_classify (start endOff idx : Nat) : ScanStatus :=
  if idx > endOff + XIH_PRTN_WORD_LEN then ScanStatus.glitchDetected
  else if idx < start then ScanStatus.glitchDetected
  else if idx ≤ endOff then ScanStatus.success
  else ScanStatus.failure

/-- The scan loop of `XLoader_CheckNonZeroPpk` (source lines 683-691):
starting from `idx`, step one word at a time while `idx ≤ endOff`, stopping
at the first index whose efuse word is non-zero.  Returns the terminating
index.  Structured by fuel (the source loop is bounded by the fixed
address range). -/
def ppkScanIndex (regs : Nat → Nat) (endOff : Nat) : Nat → Nat → Nat
  | 0, idx => idx
  | fuel + 1, idx =>
    if idx ≤ endOff then
      if regs idx ≠ 0 then idx
      else ppkScanIndex regs endOff fuel (idx + XIH_PRTN_WORD_LEN)
    else idx

/-- `XLoader_CheckNonZeroPpk`, assembled from the scan loop and the
post-loop classification, parametrised by the efuse register contents and
the scan bounds. -/
def XLoader_CheckNonZeroPpk (regs : Nat → Nat) (start endOff : Nat) : ScanStatus :=
  XLoader_CheckNonZeroPpk_classify start endOff
    (ppkScanIndex regs endOff (endOff + 1) start)

/-! ## XLoader_GetAHWRoT / XLoader_GetSHWRoT (lines 721-754)

Each keeps a function-static mirror variable, updated only when the
argument pointer is non-null and always returned.  Modelled as an explicit
state transformer `Option SecState → SecState → SecState × SecState`
(new mirror value, returned value). -/

/-- `XLoader_GetAHWRoT`: store the pointee when the pointer is non-null,
then return the mirror.  The pair is (new mirror state, return value). -/
def XLoader_GetAHWRoT (ptr : Option SecState) (st : SecState) :
    SecState × SecState :=
  match ptr with
  | some v => (v, v)
  | none => (st, st)

/-- `XLoader_GetSHWRoT`: same shape as `XLoader_GetAHWRoT`, for the
encryption mirror. -/
def XLoader_GetSHWRoT (ptr : Option SecState) (st : SecState) :
    SecState × SecState :=
  match ptr with
  | some v => (v, v)
  | none => (st, st)

/-- Initial value of the static `SecureStateAHWRoT` mirror
(`XPLMI_RTCFG_SECURESTATE_AHWROT`, source line 723). -/
def SecureStateAHWRoT_init : SecState := SecState.ahwrot

/-- Initial value of the static `SecureStateSHWRoT` mirror
(`XPLMI_RTCFG_SECURESTATE_SHWROT`, source line 747). -/
def SecureStateSHWRoT_init : SecState := SecState.shwrot

/-! ## XLoader_SetSecureState (lines 771-884)

Inputs are the observable reads the function performs, each duplicated as
in the source (`XSECURE_TEMPORAL_IMPL` double invocation / double register
read):
* `ppkSt`, `ppkStTmp` : the two results of `XLoader_CheckNonZeroPpk`;
* `bhAuth`, `bhAuthTmp` : the two reads of the boot-header image-attribute
  authentication field, already reduced to whether the field equals
  `XIH_BH_IMG_ATTRB_BH_AUTH_VALUE` (mask/shift constants live in a header
  not in the sources at hand, modelled from the spec as a Bool);
* `decReg`, `decRegTmp` : the two masked reads of the DEC_ONLY efuse bits;
* `plmKeySrc`, `plmKeySrcTmp` : the two results of `XilPdi_GetPlmKeySrc`.

The two `Xil_SecureOut32` persistence writes are assumed to succeed (their
failure path merely propagates the write status and is not part of any
claim); the function returns the two postures it persists to the registers
and mirrors. -/

/-- The encryption-posture half of `XLoader_SetSecureState`
(source lines 838-868). -/
def XLoader_EncPosture (decReg decRegTmp plmKeySrc plmKeySrcTmp : Nat) :
    SecState :=
  if decReg ≠ 0 ∨ decRegTmp ≠ 0 then SecState.shwrot
  else if plmKeySrc ≠ 0 ∨ plmKeySrcTmp ≠ 0 then SecState.emulShwrot
  else SecState.nonsecure

/-- `XLoader_SetSecureState`: classify the authentication posture from the
redundant PPK-fuse scan and the duplicated boot-header auth reads, then the
encryption posture from the duplicated DEC_ONLY / PLM-key-source reads.
Returns the fatal conflict error, or the pair
(authentication posture, encryption posture). -/
def XLoader_SetSecureState (ppkSt ppkStTmp : ScanStatus)
    (bhAuth bhAuthTmp : Bool) (decReg decRegTmp plmKeySrc plmKeySrcTmp : Nat) :
    Except SecErr (SecState × SecState) :=
  if ppkSt = ScanStatus.success ∨ ppkStTmp = ScanStatus.success then
    if bhAuth = true ∨ bhAuthTmp = true then
      Except.error SecErr.bhdrAuthNotAllowed
    else
      Except.ok (SecState.ahwrot,
        XLoader_EncPosture decReg decRegTmp plmKeySrc plmKeySrcTmp)
  else
    if bhAuth = true ∨ bhAuthTmp = true then
      Except.ok (SecState.emulAhwrot,
        XLoader_EncPosture decReg decRegTmp plmKeySrc plmKeySrcTmp)
    else
      Except.ok (SecState.nonsecure,
        XLoader_EncPosture decReg decRegTmp plmKeySrc plmKeySrcTmp)

/-! ## The chunked copy pipeline (lines 245-331, 540-669)

The pipeline is embedded as a pure state machine over the fields of
`XLoader_SecureParams` that the checksum path touches, together with an
event trace recording every call the pipeline makes to the data-mover
(`DeviceCopy`), to the bulk DMA engine (`XPlmi_DmaXfr`), and to the hash
verifier (`XLoader_VerifyHashNUpdateNext`).  Device calls are assumed to
succeed in this trace semantics (their failure paths merely propagate a
status; the failure-path behaviour of the driver is modelled separately
below for the scrub claim). -/

/-- The copy-phase flag passed to the data-mover:
`XPLMI_DEVICE_COPY_STATE_BLK` (plain blocking copy),
`XPLMI_DEVICE_COPY_STATE_WAIT_DONE` (wait for a previously initiated
transfer), `XPLMI_DEVICE_COPY_STATE_INITIATE` (non-blocking initiate).
The numeric flag values live in a header not in the sources at hand;
only the tag matters. -/
inductive CopyState where
  | blk
  | waitDone
  | initiate
deriving DecidableEq, Repr

/-- One observable call made by the pipeline. -/
inductive Ev where
  | copy (src dst len : Nat) (state : CopyState)
  | dmaXfr (src dst lenWords : Nat)
  | verify (dataAddr len : Nat) (last : Bool)
deriving DecidableEq, Repr

/-- The fields of `XLoader_SecureParams` used by the checksum pipeline.
`flashOfstAddr` and `dataWordOfst` stand for
`PdiPtr->MetaHdr.FlashOfstAddr` and `PrtnHdr->DataWordOfst` (read-only
partition-descriptor inputs). -/
structure SP where
  chunkAddr : Nat
  nextChunkAddr : Nat
  blockNum : Nat
  processedLen : Nat
  remainingDataLen : Nat
  isNextChunkCopyStarted : Bool
  isCdo : Bool
  secureData : Nat
  secureDataLen : Nat
  nextBlkAddr : Nat
  flashOfstAddr : Nat
  dataWordOfst : Nat
deriving DecidableEq, Repr

/-- The context as set up by `XLoader_SecureInit` (lines 193-200): zeroed,
with both buffer addresses bound to the first scratch region and
`BlockNum = 0`. -/
def initSP (isCdo : Bool) (flash dataOfst : Nat) : SP :=
  { chunkAddr := XPLMI_PMCRAM_CHUNK_MEMORY
    nextChunkAddr := XPLMI_PMCRAM_CHUNK_MEMORY
    blockNum := 0
    processedLen := 0
    remainingDataLen := 0
    isNextChunkCopyStarted := false
    isCdo := isCdo
    secureData := 0
    secureDataLen := 0
    nextBlkAddr := 0
    flashOfstAddr := flash
    dataWordOfst := dataOfst }

/-- `XLoader_StartNextChunkCopy` (lines 302-331): toggle the next-buffer
address, clamp the copy length to the bytes that remain, set the
`IsNextChunkCopyStarted` flag and initiate the transfer. -/
def XLoader_StartNextChunkCopy (sp : SP) (totalLen nextBlkAddr chunkLen : Nat) :
    SP × Ev :=
  let nca := if sp.chunkAddr = XPLMI_PMCRAM_CHUNK_MEMORY
    then XPLMI_PMCRAM_CHUNK_MEMORY_1 else XPLMI_PMCRAM_CHUNK_MEMORY
  let copyLen := if totalLen ≤ chunkLen then totalLen else chunkLen
  ({ sp with nextChunkAddr := nca, isNextChunkCopyStarted := true },
   Ev.copy nextBlkAddr nca copyLen CopyState.initiate)

/-- `XLoader_SecureChunkCopy` (lines 642-669): consume a pending prefetch
(`waitDone`) or perform a blocking copy (`blk`) of `totalSize` bytes into
the active buffer, then — when this is not the last chunk and at least one
chunk was already processed — initiate the prefetch of the next chunk into
the other buffer. -/
def XLoader_SecureChunkCopy (sp : SP) (srcAddr : Nat) (last : Bool)
    (blockSize totalSize : Nat) : SP × List Ev :=
  let sp1 := if sp.isNextChunkCopyStarted = true
    then { sp with isNextChunkCopyStarted := false } else sp
  let flags := if sp.isNextChunkCopyStarted = true
    then CopyState.waitDone else CopyState.blk
  let ev1 := Ev.copy srcAddr sp1.chunkAddr totalSize flags
  if last ≠ true ∧ sp1.blockNum ≠ 0 then
    let r := XLoader_StartNextChunkCopy sp1
      (sp1.remainingDataLen - totalSize) (srcAddr + totalSize) blockSize
    (r.1, [ev1, r.2])
  else
    (sp1, [ev1])

/-- `XLoader_ProcessChecksumPrtn` (lines 540-624): pick the chunk's source
address (partition data offset for block 0, recorded next-block address
otherwise), delegate to `XLoader_SecureChunkCopy`, record the verified
payload location/size, bulk-copy it to the destination when the stream is
not a CDO, verify the hash at the resulting data address, and advance the
per-partition accounting. -/
def XLoader_ProcessChecksumPrtn (sp : SP) (destAddr blockSize : Nat)
    (last : Bool) : SP × List Ev :=
  let totalSize := blockSize
  let sp0 := { sp with processedLen := 0 }
  let srcAddr := if sp0.blockNum = 0
    then sp0.flashOfstAddr + sp0.dataWordOfst * XIH_PRTN_WORD_LEN
    else sp0.nextBlkAddr
  let r := XLoader_SecureChunkCopy sp0 srcAddr last blockSize totalSize
  let sp2 := { r.1 with
    secureData := r.1.chunkAddr
    secureDataLen := if last ≠ true then totalSize - XLOADER_SHA3_LEN
      else totalSize }
  let dataAddr := if sp2.isCdo = true then sp2.chunkAddr else destAddr
  let dmaEvs := if sp2.isCdo = true then ([] : List Ev)
    else [Ev.dmaXfr sp2.secureData destAddr
            (sp2.secureDataLen / XIH_PRTN_WORD_LEN)]
  let vEv := Ev.verify dataAddr sp2.secureDataLen last
  let sp3 := { sp2 with
    nextBlkAddr := srcAddr + totalSize
    processedLen := totalSize
    blockNum := sp2.blockNum + 1 }
  (sp3, r.2 ++ dmaEvs ++ [vEv])

/-- Result of one iteration of the `XLoader_SecureCopy` loop body:
the updated context, the advanced load address and remaining length, and
the events emitted by the iteration. -/
structure StepOut where
  sp : SP
  loadAddr : Nat
  len : Nat
  evs : List Ev
deriving DecidableEq, Repr

/-- One iteration of the `while (Len > 0U)` loop body of
`XLoader_SecureCopy` (lines 254-274) with the checksum processor plugged
in: compute the chunk length as the minimum of the remaining length and
the fixed chunk size, mark the last iteration, record `RemainingDataLen`,
dispatch the processor, then advance the load address by the verified
payload length and the remaining length by the processed length, and swap
the active buffer. -/
def secureCopyStep (sp : SP) (loadAddr len : Nat) : StepOut :=
  let last := if len ≤ XLOADER_SECURE_CHUNK_SIZE then true else false
  let chunkLen := if len ≤ XLOADER_SECURE_CHUNK_SIZE then len
    else XLOADER_SECURE_CHUNK_SIZE
  let sp1 := { sp with remainingDataLen := len }
  let r := XLoader_ProcessChecksumPrtn sp1 loadAddr chunkLen last
  { sp := { r.1 with chunkAddr := r.1.nextChunkAddr }
    loadAddr := loadAddr + r.1.secureDataLen
    len := len - r.1.processedLen
    evs := r.2 }

/-- The loop of `XLoader_SecureCopy` (lines 254-274), success path,
iterating `secureCopyStep` until the remaining length reaches zero.
Structured by fuel so that the definition evaluates; `fuel ≥ len` always
suffices (proved below). -/
def XLoader_SecureCopy_trace : Nat → SP → Nat → Nat → Option (SP × List Ev)
  | 0, sp, _, len => if len = 0 then some (sp, []) else none
  | fuel + 1, sp, loadAddr, len =>
    if len = 0 then some (sp, [])
    else
      match XLoader_SecureCopy_trace fuel (secureCopyStep sp loadAddr len).sp
          (secureCopyStep sp loadAddr len).loadAddr
          (secureCopyStep sp loadAddr len).len with
      | some (spF, evsR) =>
          some (spF, (secureCopyStep sp loadAddr len).evs ++ evsR)
      | none => none

/-- The event trace of a whole checksum-mode partition load of `size`
bytes to `dest`, starting from the freshly initialised context. -/
def checksumTrace (isCdo : Bool) (flash dataOfst dest size : Nat) : List Ev :=
  match XLoader_SecureCopy_trace size (initSP isCdo flash dataOfst) dest size with
  | some (_, t) => t
  | none => []

/-- Number of hash-verification calls in a trace. -/
def numVerify : List Ev → Nat
  | [] => 0
  | Ev.verify _ _ _ :: t => numVerify t + 1
  | _ :: t => numVerify t

/-- Whether a trace contains a non-blocking initiate call. -/
def hasInitiate (l : List Ev) : Bool :=
  l.any fun e => match e with
    | Ev.copy _ _ _ CopyState.initiate => true
    | _ => false

/-- The wait/initiate handshake discipline: scanning the trace with an
armed flag (a prefetch is outstanding), a `waitDone` call is legal only
when the flag is armed and consumes it; an `initiate` call arms it. -/
def waitDiscipline : Bool → List Ev → Bool
  | _, [] => true
  | armed, Ev.copy _ _ _ CopyState.waitDone :: t =>
      armed && waitDiscipline false t
  | _, Ev.copy _ _ _ CopyState.initiate :: t => waitDiscipline true t
  | armed, _ :: t => waitDiscipline armed t

/-! ## XLoader_VerifyHashNUpdateNext (lines 375-452)

The SHA3 engine is abstracted by its update/finish semantics: the digest
is an arbitrary function of the concatenated byte stream fed through the
update calls.  Memory is a byte map `Nat → Nat`.  The function below
records the exact `(address, length)` ranges passed to
`XSecure_Sha3Update64Bit`, builds the hashed stream from them, performs
the (double-invoked, hence in a pure semantics single) constant-time
comparison against the expected hash, and on a match that is not the last
chunk reloads the expected hash from the trailing bytes at
`ChunkAddr + Size`.  The engine-failure paths (initialise/start/update/
finish reporting an error) merely propagate a status and are assumed
successful here. -/

/-- Error kind of the hash verifier
(`XLOADER_ERR_PRTN_HASH_COMPARE_FAIL`; code value in a header not in the
sources at hand, modelled from the spec as a tag). -/
inductive VerifyErr where
  | hashMismatch
deriving DecidableEq, Repr

/-- The `(address, length)` ranges fed to the SHA3 update calls by
`XLoader_VerifyHashNUpdateNext`: the main update covers `size` bytes at
`dataAddr`, extended by one hash-length when the stream is a CDO and the
chunk is not the last (line 390-392); for a non-last non-CDO chunk a
second update covers one hash-length at `chunkAddr + size`
(lines 415-422). -/
def XLoader_VerifyHash_ranges (isCdo : Bool) (chunkAddr dataAddr size : Nat)
    (last : Bool) : List (Nat × Nat) :=
  [(dataAddr, if isCdo = true ∧ last ≠ true then size + XLOADER_SHA3_LEN
      else size)] ++
  (if last ≠ true ∧ isCdo ≠ true then [(chunkAddr + size, XLOADER_SHA3_LEN)]
   else [])

/-- Total number of bytes covered by a list of update ranges. -/
def coveredLen (rs : List (Nat × Nat)) : Nat :=
  (rs.map Prod.snd).sum

/-- The `len` bytes of memory starting at `addr`. -/
def readBytes (mem : Nat → Nat) (addr len : Nat) : List Nat :=
  (List.range len).map fun i => mem (addr + i)

/-- The byte stream hashed by the verifier: the concatenation of the
update ranges' contents. -/
def XLoader_VerifyHash_stream (isCdo : Bool) (mem : Nat → Nat)
    (chunkAddr dataAddr size : Nat) (last : Bool) : List Nat :=
  ((XLoader_VerifyHash_ranges isCdo chunkAddr dataAddr size last).map
    fun r => readBytes mem r.1 r.2).foldr List.append []

/-- `XLoader_VerifyHashNUpdateNext`: hash the stream, compare against the
expected hash (`Xil_SMemCmp_CT`, invoked twice with identical arguments by
`XSECURE_TEMPORAL_IMPL`; identical in a pure semantics), and on a match
that is not the last chunk copy the trailing hash-length bytes at
`chunkAddr + size` into the expected-hash buffer (lines 445-448).
Returns the new expected hash. -/
def XLoader_VerifyHashNUpdateNext (digest : List Nat → List Nat)
    (isCdo : Bool) (mem : Nat → Nat) (chunkAddr : Nat) (expHash : List Nat)
    (dataAddr size : Nat) (last : Bool) : Except VerifyErr (List Nat) :=
  let blkHash := digest
    (XLoader_VerifyHash_stream isCdo mem chunkAddr dataAddr size last)
  if blkHash = expHash ∧ blkHash = expHash then
    if last ≠ true then
      Except.ok (readBytes mem (chunkAddr + size) XLOADER_SHA3_LEN)
    else
      Except.ok expHash
  else
    Except.error VerifyErr.hashMismatch

/-! ## XLoader_SecureCopy failure path (lines 245-288)

For the scrub claim the driver is modelled with an abstract per-chunk
processor outcome: chunk `i` either fails with a non-zero status code or
succeeds consuming `pLen` bytes.  The END block (lines 276-287) scrubs
the whole destination range with `XPlmi_InitNVerifyMem(DestAddr, Size)`
whenever the final status is not `XST_SUCCESS`, and ORs onto the status a
flag recording the scrub outcome. -/

/-- Processed length reported by chunk `i`'s processor outcome
(0 when the chunk fails; the loop exits before using it in that case). -/
def pLenAt (outcomes : Nat → Except Nat Nat) (i : Nat) : Nat :=
  match outcomes i with
  | Except.ok p => p
  | Except.error _ => 0

/-- Sum of the processed lengths of the `k` chunks starting at `blk`. -/
def sumPLen (outcomes : Nat → Except Nat Nat) (blk : Nat) : Nat → Nat
  | 0 => 0
  | k + 1 => pLenAt outcomes blk + sumPLen outcomes (blk + 1) k

/-- The `while (Len > 0U)` loop of `XLoader_SecureCopy` (lines 254-274)
over abstract per-chunk outcomes: status starts at `XST_FAILURE` (= 1,
line 247), becomes the chunk's error code on the first failing chunk
(loop exit via goto END), and `XST_SUCCESS` (= 0) after each successful
chunk.  Returns the final status; fuel-structured. -/
def XLoader_SecureCopy_loop (outcomes : Nat → Except Nat Nat) :
    Nat → Nat → Nat → Nat → Option Nat
  | 0, _, len, st => if len = 0 then some st else none
  | fuel + 1, blk, len, st =>
    if len = 0 then some st
    else
      match outcomes blk with
      | Except.error e => some e
      | Except.ok pLen =>
          XLoader_SecureCopy_loop outcomes fuel (blk + 1) (len - pLen) 0

/-- `XLoader_SecureCopy` including its END block: run the loop; when the
final status is non-zero, scrub `[destAddr, destAddr + size)` and OR the
scrub-outcome flag onto the status.  Returns the final status and the
list of scrub calls (address, size) performed. -/
def XLoader_SecureCopy (outcomes : Nat → Except Nat Nat) (scrubOk : Bool)
    (fuel destAddr size : Nat) : Option (Nat × List (Nat × Nat)) :=
  match XLoader_SecureCopy_loop outcomes fuel 0 size 1 with
  | none => none
  | some st =>
    if st ≠ 0 then
      some (Nat.lor st (if scrubOk then XLOADER_SEC_BUF_CLEAR_SUCCESS
              else XLOADER_SEC_BUF_CLEAR_ERR),
            [(destAddr, size)])
    else
      some (st, [])

/-! ## Theorems -/

/-- C10: the root-of-trust mirror accessors are query-only when passed a
null pointer — the mirror is unchanged and the last stored value is
returned — and before any store the defaults are the most restrictive
postures (Asymmetric HWRoT for authentication, Symmetric HWRoT for
encryption), never NonSecure. -/
theorem XLoader_GetHWRoT_mirror_query_only :
    ∀ (st v : SecState),
      XLoader_GetAHWRoT none st = (st, st) ∧
      XLoader_GetSHWRoT none st = (st, st) ∧
      (XLoader_GetAHWRoT none (XLoader_GetAHWRoT (some v) st).1).2 = v ∧
      (XLoader_GetSHWRoT none (XLoader_GetSHWRoT (some v) st).1).2 = v ∧
      SecureStateAHWRoT_init = SecState.ahwrot ∧
      SecureStateSHWRoT_init = SecState.shwrot ∧
      SecureStateAHWRoT_init ≠ SecState.nonsecure ∧
      SecureStateSHWRoT_init ≠ SecState.nonsecure := by
  intro st v
  exact ⟨rfl, rfl, rfl, rfl, rfl, rfl, by decide, by decide⟩

/-- C4, counterexample: the terminating index exactly one word past the
end of the scan range (the normal not-found loop exit) lies outside the
inclusive range [start, end] yet is classified as `XST_FAILURE`, not as
the glitch-detected error, refuting the claim that every out-of-range
terminating index yields the GlitchDetected error. -/
theorem XLoader_CheckNonZeroPpk_out_of_range_cex :
    ¬ (256 ≤ 480 ∧ 480 ≤ 476) ∧
    XLoader_CheckNonZeroPpk_classify 256 476 480 = ScanStatus.failure ∧
    XLoader_CheckNonZeroPpk_classify 256 476 480 ≠ ScanStatus.glitchDetected := by
  decide

/-- C4, amended: a terminating index below the start or more than one
word past the end is classified as the GlitchDetected error; an index in
the window (end, end + word] (the normal not-found exit) is classified as
`XST_FAILURE`; and no out-of-range terminating index is ever classified
as success. -/
theorem XLoader_CheckNonZeroPpk_out_of_range :
    ∀ start endOff idx : Nat,
      start ≤ endOff →
      ¬ (start ≤ idx ∧ idx ≤ endOff) →
      ((idx < start ∨ endOff + XIH_PRTN_WORD_LEN < idx →
          XLoader_CheckNonZeroPpk_classify start endOff idx =
            ScanStatus.glitchDetected) ∧
       (endOff < idx → idx ≤ endOff + XIH_PRTN_WORD_LEN →
          XLoader_CheckNonZeroPpk_classify start endOff idx =
            ScanStatus.failure) ∧
       XLoader_CheckNonZeroPpk_classify start endOff idx ≠
         ScanStatus.success) := by
  intro start endOff idx hrange h
  unfold XLoader_CheckNonZeroPpk_classify XIH_PRTN_WORD_LEN
  refine ⟨?_, ?_, ?_⟩
  · intro hout
    split_ifs with h1 h2 h3
    · rfl
    · rfl
    · exfalso; omega
    · exfalso; omega
  · intro hlo hhi
    split_ifs with h1 h2 h3
    · exfalso; omega
    · exfalso; omega
    · exfalso; omega
    · rfl
  · split_ifs with h1 h2 h3
    · decide
    · decide
    · exfalso; omega
    · decide

/-- C4, witness for the amended theorem at a concrete out-of-range
index below the scan start. -/
theorem XLoader_CheckNonZeroPpk_out_of_range_witness :
    XLoader_CheckNonZeroPpk_classify 256 476 100 = ScanStatus.glitchDetected :=
  (XLoader_CheckNonZeroPpk_out_of_range 256 476 100 (by omega) (by omega)).1
    (Or.inl (by omega))

/-- C2: the root-of-trust classifier fails with the BhdrAuthNotAllowed
error when either duplicate fuse scan reports success and either duplicate
boot-header auth read is set; yields Emulated-Asymmetric-HWRoT when both
scans report non-success and either auth read is set; yields NonSecure
when both scans report non-success and both auth reads are unset; and the
encryption posture of every non-error outcome is the function
`XLoader_EncPosture` of the encryption inputs alone, independent of the
authentication outcome. -/
theorem XLoader_SetSecureState_classifier :
    ∀ (ppkSt ppkStTmp : ScanStatus) (bhAuth bhAuthTmp : Bool)
      (decReg decRegTmp plmKeySrc plmKeySrcTmp : Nat),
      ((ppkSt = ScanStatus.success ∨ ppkStTmp = ScanStatus.success) →
        (bhAuth = true ∨ bhAuthTmp = true) →
        XLoader_SetSecureState ppkSt ppkStTmp bhAuth bhAuthTmp
            decReg decRegTmp plmKeySrc plmKeySrcTmp =
          Except.error SecErr.bhdrAuthNotAllowed) ∧
      (ppkSt ≠ ScanStatus.success → ppkStTmp ≠ ScanStatus.success →
        (bhAuth = true ∨ bhAuthTmp = true) →
        XLoader_SetSecureState ppkSt ppkStTmp bhAuth bhAuthTmp
            decReg decRegTmp plmKeySrc plmKeySrcTmp =
          Except.ok (SecState.emulAhwrot,
            XLoader_EncPosture decReg decRegTmp plmKeySrc plmKeySrcTmp)) ∧
      (ppkSt ≠ ScanStatus.success → ppkStTmp ≠ ScanStatus.success →
        bhAuth = false → bhAuthTmp = false →
        XLoader_SetSecureState ppkSt ppkStTmp bhAuth bhAuthTmp
            decReg decRegTmp plmKeySrc plmKeySrcTmp =
          Except.ok (SecState.nonsecure,
            XLoader_EncPosture decReg decRegTmp plmKeySrc plmKeySrcTmp)) ∧
      (∀ a s,
        XLoader_SetSecureState ppkSt ppkStTmp bhAuth bhAuthTmp
            decReg decRegTmp plmKeySrc plmKeySrcTmp = Except.ok (a, s) →
        s = XLoader_EncPosture decReg decRegTmp plmKeySrc plmKeySrcTmp) := by
  intro ppkSt ppkStTmp bhAuth bhAuthTmp decReg decRegTmp plmKeySrc plmKeySrcTmp
  unfold XLoader_SetSecureState
  refine ⟨?_, ?_, ?_, ?_⟩
  · intro h1 h2
    rw [if_pos h1, if_pos h2]
  · intro h1 h2 h3
    rw [if_neg (by tauto), if_pos h3]
  · intro h1 h2 h3 h4
    rw [if_neg (by tauto), if_neg (by simp [h3, h4])]
  · intro a s h
    split_ifs at h <;> simp_all

/-- C2, witness: emulated posture at a concrete input with both scans
reporting not-programmed and the first boot-header auth read set. -/
theorem XLoader_SetSecureState_classifier_witness :
    XLoader_SetSecureState ScanStatus.failure ScanStatus.failure true false
        0 0 0 0 =
      Except.ok (SecState.emulAhwrot, XLoader_EncPosture 0 0 0 0) :=
  (XLoader_SetSecureState_classifier ScanStatus.failure ScanStatus.failure
    true false 0 0 0 0).2.1 (by decide) (by decide) (Or.inl rfl)

/-- C1, counterexample: for a non-final chunk of the encoded (CDO) kind
the digest does not cover exactly `size` bytes — at `size = 100` the
update ranges cover 148 bytes (the payload plus one hash-length),
refuting the claim's encoded-kind half. -/
theorem XLoader_VerifyHash_cdo_len_cex :
    coveredLen (XLoader_VerifyHash_ranges true 4096 4096 100 false) = 148 ∧
    coveredLen (XLoader_VerifyHash_ranges true 4096 4096 100 false) ≠ 100 := by
  decide

/-- C1, amended: for every non-final chunk of either kind the computed
digest covers `size` payload bytes plus one hash-length (48 bytes) of
trailing hash; for the encoded (CDO) kind as a single contiguous range of
`size + 48` bytes at the data address, and for the raw kind as `size`
bytes at the data address plus 48 trailing bytes immediately following
the payload in the chunk buffer. -/
theorem XLoader_VerifyHash_nonfinal_coverage :
    ∀ (isCdo : Bool) (chunkAddr dataAddr size : Nat),
      coveredLen (XLoader_VerifyHash_ranges isCdo chunkAddr dataAddr size false) =
        size + XLOADER_SHA3_LEN ∧
      (isCdo = true →
        XLoader_VerifyHash_ranges isCdo chunkAddr dataAddr size false =
          [(dataAddr, size + XLOADER_SHA3_LEN)]) ∧
      (isCdo = false →
        XLoader_VerifyHash_ranges isCdo chunkAddr dataAddr size false =
          [(dataAddr, size), (chunkAddr + size, XLOADER_SHA3_LEN)]) := by
  intro isCdo chunkAddr dataAddr size
  cases isCdo <;>
    simp [XLoader_VerifyHash_ranges, coveredLen, XLOADER_SHA3_LEN]

/-- C6: when the digest comparison passes, the expected-hash buffer is
overwritten with the hash-length bytes immediately after the payload in
the chunk buffer whenever the chunk is not the final one (becoming the
next chunk's expected digest), and is left unchanged on the final
chunk. -/
theorem XLoader_VerifyHashNUpdateNext_chain_update :
    ∀ (digest : List Nat → List Nat) (isCdo : Bool) (mem : Nat → Nat)
      (chunkAddr : Nat) (expHash : List Nat) (dataAddr size : Nat)
      (last : Bool),
      digest (XLoader_VerifyHash_stream isCdo mem chunkAddr dataAddr size
        last) = expHash →
      XLoader_VerifyHashNUpdateNext digest isCdo mem chunkAddr expHash
          dataAddr size last =
        Except.ok (if last = true then expHash
          else readBytes mem (chunkAddr + size) XLOADER_SHA3_LEN) := by
  intro digest isCdo mem chunkAddr expHash dataAddr size last h
  unfold XLoader_VerifyHashNUpdateNext
  rw [if_pos ⟨h, h⟩]
  cases last <;> simp

/-- C6, witness at a concrete input on which the digest matches. -/
theorem XLoader_VerifyHashNUpdateNext_chain_update_witness :
    XLoader_VerifyHashNUpdateNext (fun _ => List.replicate 48 0) false
        (fun _ => 0) 0 (List.replicate 48 0) 0 4 false =
      Except.ok (if false = true then List.replicate 48 0
        else readBytes (fun _ => 0) (0 + 4) XLOADER_SHA3_LEN) :=
  XLoader_VerifyHashNUpdateNext_chain_update (fun _ => List.replicate 48 0)
    false (fun _ => 0) 0 (List.replicate 48 0) 0 4 false rfl

/-- C9: after the transfer step of the checksum pipeline the verified-data
address equals the active chunk buffer address, and the verified-data
length equals the chunk's total size minus one hash-length for every
non-last chunk and the full total size for the last chunk. -/
theorem XLoader_ProcessChecksumPrtn_secure_data :
    ∀ (sp : SP) (destAddr blockSize : Nat) (last : Bool),
      (XLoader_ProcessChecksumPrtn sp destAddr blockSize last).1.secureData =
        sp.chunkAddr ∧
      (XLoader_ProcessChecksumPrtn sp destAddr blockSize last).1.secureDataLen =
        (if last = true then blockSize else blockSize - XLOADER_SHA3_LEN) := by
  intro sp destAddr blockSize last
  unfold XLoader_ProcessChecksumPrtn XLoader_SecureChunkCopy
    XLoader_StartNextChunkCopy
  cases last <;>
    by_cases hb : sp.blockNum = 0 <;>
    by_cases hf : sp.isNextChunkCopyStarted = true <;>
    simp [hb, hf]

/-- C7: the chunk-transfer primitive initiates a non-blocking prefetch
exactly when the chunk is not the last and `BlockNum` is non-zero; the
prefetch length is the minimum of the bytes remaining after this chunk
and the block size, its destination is the other scratch buffer, and the
next-chunk-copy-started flag is set. -/
theorem XLoader_SecureChunkCopy_prefetch :
    ∀ (sp : SP) (srcAddr : Nat) (last : Bool) (blockSize totalSize : Nat),
      totalSize ≤ sp.remainingDataLen →
      ((hasInitiate
          (XLoader_SecureChunkCopy sp srcAddr last blockSize totalSize).2 =
            true ↔ (last ≠ true ∧ sp.blockNum ≠ 0)) ∧
       (last ≠ true ∧ sp.blockNum ≠ 0 →
        ((XLoader_SecureChunkCopy sp srcAddr last blockSize totalSize).2 =
            [Ev.copy srcAddr sp.chunkAddr totalSize
               (if sp.isNextChunkCopyStarted = true then CopyState.waitDone
                else CopyState.blk),
             Ev.copy (srcAddr + totalSize)
               (if sp.chunkAddr = XPLMI_PMCRAM_CHUNK_MEMORY
                then XPLMI_PMCRAM_CHUNK_MEMORY_1
                else XPLMI_PMCRAM_CHUNK_MEMORY)
               (min (sp.remainingDataLen - totalSize) blockSize)
               CopyState.initiate]) ∧
        (XLoader_SecureChunkCopy sp srcAddr last blockSize
          totalSize).1.isNextChunkCopyStarted = true)) := by
  intro sp srcAddr last blockSize totalSize hle
  unfold XLoader_SecureChunkCopy XLoader_StartNextChunkCopy
  cases last <;>
    by_cases hb : sp.blockNum = 0 <;>
    by_cases hf : sp.isNextChunkCopyStarted = true <;>
    simp [hb, hf, hasInitiate, Nat.min_def]

/-- C7, witness at a concrete non-last chunk with `BlockNum = 1`. -/
theorem XLoader_SecureChunkCopy_prefetch_witness :
    hasInitiate
      (XLoader_SecureChunkCopy
        { initSP false 0 0 with remainingDataLen := 100, blockNum := 1 }
        0 false 64 40).2 = true :=
  (XLoader_SecureChunkCopy_prefetch
    { initSP false 0 0 with remainingDataLen := 100, blockNum := 1 }
    0 false 64 40 (by decide)).1.mpr ⟨by decide, by decide⟩

/-- Propagation through the `while` loop of `XLoader_SecureCopy`: when
the first `k` chunks succeed without exhausting the remaining length and
chunk `k` fails with code `e`, the loop returns `e`. -/
theorem XLoader_SecureCopy_loop_fail :
    ∀ (outcomes : Nat → Except Nat Nat) (e k : Nat),
    ∀ (fuel blk len st : Nat),
      (∀ i, i < k → outcomes (blk + i) = Except.ok (pLenAt outcomes (blk + i))) →
      sumPLen outcomes blk k < len →
      outcomes (blk + k) = Except.error e →
      k < fuel →
      XLoader_SecureCopy_loop outcomes fuel blk len st = some e := by
  intro outcomes e k
  induction k with
  | zero =>
    intro fuel blk len st hok hsum herr hfuel
    obtain ⟨f, rfl⟩ : ∃ f, fuel = f + 1 := ⟨fuel - 1, by omega⟩
    have hlen : ¬ len = 0 := by
      have : sumPLen outcomes blk 0 = 0 := rfl
      omega
    unfold XLoader_SecureCopy_loop
    rw [if_neg hlen]
    simp only [Nat.add_zero] at herr
    rw [herr]
  | succ k ih =>
    intro fuel blk len st hok hsum herr hfuel
    obtain ⟨f, rfl⟩ : ∃ f, fuel = f + 1 := ⟨fuel - 1, by omega⟩
    have hsum1 : pLenAt outcomes blk + sumPLen outcomes (blk + 1) k < len := hsum
    have hlen : ¬ len = 0 := by omega
    have h0 : outcomes (blk + 0) = Except.ok (pLenAt outcomes (blk + 0)) :=
      hok 0 (by omega)
    simp only [Nat.add_zero] at h0
    unfold XLoader_SecureCopy_loop
    rw [if_neg hlen, h0]
    apply ih
    · intro i hi
      have h2 : blk + 1 + i = blk + (i + 1) := by omega
      rw [h2]
      exact hok (i + 1) (by omega)
    · omega
    · have h3 : blk + 1 + k = blk + (k + 1) := by omega
      rw [h3]
      exact herr
    · omega

/-- C5: whenever the Copy Driver's processor fails on some chunk (with a
non-zero code, the earlier chunks having succeeded without exhausting the
partition), the driver scrubs the whole destination range
`[destAddr, destAddr + size)` and returns the failure code with the
scrub-outcome flag OR-ed onto it — `XLOADER_SEC_BUF_CLEAR_SUCCESS` when
the scrub succeeded, `XLOADER_SEC_BUF_CLEAR_ERR` when it failed. -/
theorem XLoader_SecureCopy_scrub_on_failure :
    ∀ (outcomes : Nat → Except Nat Nat) (scrubOk : Bool)
      (e k fuel destAddr size : Nat),
      (∀ i, i < k → outcomes i = Except.ok (pLenAt outcomes i)) →
      sumPLen outcomes 0 k < size →
      outcomes k = Except.error e →
      k < fuel →
      e ≠ 0 →
      XLoader_SecureCopy outcomes scrubOk fuel destAddr size =
        some (Nat.lor e (if scrubOk then XLOADER_SEC_BUF_CLEAR_SUCCESS
                else XLOADER_SEC_BUF_CLEAR_ERR),
              [(destAddr, size)]) := by
  intro outcomes scrubOk e k fuel destAddr size hok hsum herr hfuel he
  unfold XLoader_SecureCopy
  rw [XLoader_SecureCopy_loop_fail outcomes e k fuel 0 size 1
    (by intro i hi; simpa using hok i hi) hsum (by simpa using herr) hfuel]
  simp [he]

/-- C5, witness: a first-chunk failure with code 5 and a successful
scrub. -/
theorem XLoader_SecureCopy_scrub_on_failure_witness :
    XLoader_SecureCopy (fun _ => Except.error 5) true 1 7 10 =
      some (Nat.lor 5 (if true then XLOADER_SEC_BUF_CLEAR_SUCCESS
              else XLOADER_SEC_BUF_CLEAR_ERR),
            [(7, 10)]) :=
  XLoader_SecureCopy_scrub_on_failure (fun _ => Except.error 5) true 5 0 1 7 10
    (fun i hi => absurd hi (by omega)) (by decide) rfl (by decide) (by decide)

/-- The checksum processor always reports the full chunk as processed
(`SecurePtr->ProcessedLen = TotalSize`, line 607). -/
theorem XLoader_ProcessChecksumPrtn_processedLen :
    ∀ (sp : SP) (destAddr blockSize : Nat) (last : Bool),
      (XLoader_ProcessChecksumPrtn sp destAddr blockSize last).1.processedLen =
        blockSize := by
  intro sp destAddr blockSize last
  unfold XLoader_ProcessChecksumPrtn XLoader_SecureChunkCopy
    XLoader_StartNextChunkCopy
  cases last <;>
    by_cases hb : sp.blockNum = 0 <;>
    by_cases hf : sp.isNextChunkCopyStarted = true <;>
    simp [hb, hf]

/-- One loop iteration strictly decreases the remaining length. -/
theorem secureCopyStep_len_lt :
    ∀ (sp : SP) (loadAddr len : Nat), len ≠ 0 →
      (secureCopyStep sp loadAddr len).len < len := by
  intro sp loadAddr len h0
  have hp : (secureCopyStep sp loadAddr len).len =
      len - (if len ≤ XLOADER_SECURE_CHUNK_SIZE then len
        else XLOADER_SECURE_CHUNK_SIZE) := by
    unfold secureCopyStep
    simp [XLoader_ProcessChecksumPrtn_processedLen]
  rw [hp]
  unfold XLOADER_SECURE_CHUNK_SIZE
  by_cases hl : len ≤ 0x8000
  · rw [if_pos hl]
    omega
  · rw [if_neg hl]
    omega

/-- Every loop iteration emits at least one event (the chunk's device
copy and hash verification). -/
theorem secureCopyStep_evs_ne_nil :
    ∀ (sp : SP) (loadAddr len : Nat),
      (secureCopyStep sp loadAddr len).evs ≠ [] := by
  intro sp loadAddr len
  unfold secureCopyStep XLoader_ProcessChecksumPrtn XLoader_SecureChunkCopy
    XLoader_StartNextChunkCopy
  by_cases hl : len ≤ XLOADER_SECURE_CHUNK_SIZE <;>
    by_cases hb : sp.blockNum = 0 <;>
    by_cases hf : sp.isNextChunkCopyStarted = true <;>
    by_cases hc : sp.isCdo = true <;>
    simp [hl, hb, hf, hc]

/-- Fuel at least the remaining length is always enough for the loop to
run to completion. -/
theorem XLoader_SecureCopy_trace_isSome :
    ∀ (fuel : Nat) (sp : SP) (loadAddr len : Nat), len ≤ fuel →
      (XLoader_SecureCopy_trace fuel sp loadAddr len).isSome = true := by
  intro fuel
  induction fuel with
  | zero =>
    intro sp loadAddr len h
    have h0 : len = 0 := by omega
    subst h0
    simp [XLoader_SecureCopy_trace]
  | succ f ih =>
    intro sp loadAddr len h
    by_cases h0 : len = 0
    · subst h0
      simp [XLoader_SecureCopy_trace]
    · have hlt := secureCopyStep_len_lt sp loadAddr len h0
      have hs := ih (secureCopyStep sp loadAddr len).sp
        (secureCopyStep sp loadAddr len).loadAddr
        (secureCopyStep sp loadAddr len).len (by omega)
      simp only [XLoader_SecureCopy_trace]
      rw [if_neg h0]
      cases heq : XLoader_SecureCopy_trace f (secureCopyStep sp loadAddr len).sp
          (secureCopyStep sp loadAddr len).loadAddr
          (secureCopyStep sp loadAddr len).len with
      | none => rw [heq] at hs; simp at hs
      | some v =>
        obtain ⟨v1, v2⟩ := v
        rfl

/-- C8: with a positive remaining length every successful iteration of
the Copy Driver loop strictly decreases the remaining length; the loop
runs to completion once the fuel bound covers the remaining length; a
positive remaining length always emits at least one more iteration's
events; and the loop terminates (with no further events) exactly when the
remaining length reaches zero. -/
theorem XLoader_SecureCopy_loop_terminates :
    ∀ (sp : SP) (loadAddr len : Nat), 0 < len →
      ((secureCopyStep sp loadAddr len).len < len ∧
       (∀ fuel, len ≤ fuel →
         (XLoader_SecureCopy_trace fuel sp loadAddr len).isSome = true) ∧
       (∀ fuel spF evs,
         XLoader_SecureCopy_trace fuel sp loadAddr len = some (spF, evs) →
         evs ≠ []) ∧
       (∀ fuel, XLoader_SecureCopy_trace fuel sp loadAddr 0 = some (sp, []))) := by
  intro sp loadAddr len hpos
  refine ⟨secureCopyStep_len_lt sp loadAddr len (by omega),
    fun fuel hf => XLoader_SecureCopy_trace_isSome fuel sp loadAddr len hf,
    ?_, ?_⟩
  · intro fuel spF evs h
    cases fuel with
    | zero =>
      rw [XLoader_SecureCopy_trace, if_neg (by omega)] at h
      exact absurd h (by simp)
    | succ f =>
      rw [XLoader_SecureCopy_trace, if_neg (by omega)] at h
      cases heq : XLoader_SecureCopy_trace f (secureCopyStep sp loadAddr len).sp
          (secureCopyStep sp loadAddr len).loadAddr
          (secureCopyStep sp loadAddr len).len with
      | none => rw [heq] at h; exact absurd h (by simp)
      | some v =>
        rw [heq] at h
        obtain ⟨v1, v2⟩ := v
        simp only [Option.some.injEq, Prod.mk.injEq] at h
        obtain ⟨-, rfl⟩ := h
        have := secureCopyStep_evs_ne_nil sp loadAddr len
        intro hnil
        exact this (List.append_eq_nil.mp hnil).1
  · intro fuel
    cases fuel with
    | zero => rw [XLoader_SecureCopy_trace]; simp
    | succ f => rw [XLoader_SecureCopy_trace]; simp

/-- C8, witness at a concrete one-chunk partition of 5 bytes. -/
theorem XLoader_SecureCopy_loop_terminates_witness :
    (secureCopyStep (initSP false 0 0) 0 5).len < 5 ∧
    (XLoader_SecureCopy_trace 5 (initSP false 0 0) 0 5).isSome = true := by
  refine ⟨(XLoader_SecureCopy_loop_terminates (initSP false 0 0) 0 5
    (by omega)).1, ?_⟩
  exact (XLoader_SecureCopy_loop_terminates (initSP false 0 0) 0 5
    (by omega)).2.1 5 (by omega)

/-- Scanning one iteration's events preserves the wait/initiate
discipline: starting from the context's flag, the iteration's events
leave the scan in the state given by the post-iteration flag. -/
theorem waitDiscipline_step :
    ∀ (sp : SP) (loadAddr len : Nat) (rest : List Ev),
      waitDiscipline sp.isNextChunkCopyStarted
          ((secureCopyStep sp loadAddr len).evs ++ rest) =
        waitDiscipline
          (secureCopyStep sp loadAddr len).sp.isNextChunkCopyStarted rest := by
  intro sp loadAddr len rest
  unfold secureCopyStep XLoader_ProcessChecksumPrtn XLoader_SecureChunkCopy
    XLoader_StartNextChunkCopy
  by_cases hl : len ≤ XLOADER_SECURE_CHUNK_SIZE <;>
    by_cases hb : sp.blockNum = 0 <;>
    by_cases hf : sp.isNextChunkCopyStarted = true <;>
    by_cases hc : sp.isCdo = true <;>
    simp [hl, hb, hf, hc, waitDiscipline]

/-- Any complete run of the Copy Driver loop satisfies the wait/initiate
discipline from the context's starting flag. -/
theorem waitDiscipline_loop :
    ∀ (fuel : Nat) (sp : SP) (loadAddr len : Nat) (spF : SP) (tr : List Ev),
      XLoader_SecureCopy_trace fuel sp loadAddr len = some (spF, tr) →
      waitDiscipline sp.isNextChunkCopyStarted tr = true := by
  intro fuel
  induction fuel with
  | zero =>
    intro sp loadAddr len spF tr h
    rw [XLoader_SecureCopy_trace] at h
    by_cases h0 : len = 0
    · rw [if_pos h0] at h
      simp only [Option.some.injEq, Prod.mk.injEq] at h
      obtain ⟨-, rfl⟩ := h
      simp [waitDiscipline]
    · rw [if_neg h0] at h
      exact absurd h (by simp)
  | succ f ih =>
    intro sp loadAddr len spF tr h
    rw [XLoader_SecureCopy_trace] at h
    by_cases h0 : len = 0
    · rw [if_pos h0] at h
      simp only [Option.some.injEq, Prod.mk.injEq] at h
      obtain ⟨-, rfl⟩ := h
      simp [waitDiscipline]
    · rw [if_neg h0] at h
      cases heq : XLoader_SecureCopy_trace f (secureCopyStep sp loadAddr len).sp
          (secureCopyStep sp loadAddr len).loadAddr
          (secureCopyStep sp loadAddr len).len with
      | none => rw [heq] at h; exact absurd h (by simp)
      | some v =>
        obtain ⟨spR, evsR⟩ := v
        rw [heq] at h
        simp only [Option.some.injEq, Prod.mk.injEq] at h
        obtain ⟨-, rfl⟩ := h
        rw [waitDiscipline_step]
        exact ih _ _ _ _ _ heq

/-- Unfolding one iteration of the Copy Driver loop when the remaining
length is positive and the fuel covers the rest. -/
theorem XLoader_SecureCopy_trace_cons :
    ∀ (fuel : Nat) (sp : SP) (loadAddr len : Nat), len ≠ 0 →
      (secureCopyStep sp loadAddr len).len ≤ fuel →
      ∃ spF evsR,
        XLoader_SecureCopy_trace (fuel + 1) sp loadAddr len =
          some (spF, (secureCopyStep sp loadAddr len).evs ++ evsR) ∧
        XLoader_SecureCopy_trace fuel (secureCopyStep sp loadAddr len).sp
          (secureCopyStep sp loadAddr len).loadAddr
          (secureCopyStep sp loadAddr len).len = some (spF, evsR) := by
  intro fuel sp loadAddr len h0 hle
  have hs := XLoader_SecureCopy_trace_isSome fuel
    (secureCopyStep sp loadAddr len).sp
    (secureCopyStep sp loadAddr len).loadAddr
    (secureCopyStep sp loadAddr len).len hle
  cases heq : XLoader_SecureCopy_trace fuel (secureCopyStep sp loadAddr len).sp
      (secureCopyStep sp loadAddr len).loadAddr
      (secureCopyStep sp loadAddr len).len with
  | none => rw [heq] at hs; simp at hs
  | some v =>
    obtain ⟨spF, evsR⟩ := v
    refine ⟨spF, evsR, ?_, rfl⟩
    rw [XLoader_SecureCopy_trace, if_neg h0, heq]

/-- The first iteration of the Copy Driver on a freshly initialised
context, for a partition larger than one chunk: a blocking copy of the
first chunk into the first scratch buffer, no prefetch (`BlockNum = 0`),
the optional bulk DMA, and the first chunk's verification. -/
theorem secureCopyStep_first :
    ∀ (isCdo : Bool) (flash dataOfst dest size : Nat),
      ¬ size ≤ XLOADER_SECURE_CHUNK_SIZE →
      secureCopyStep (initSP isCdo flash dataOfst) dest size =
        { sp := { chunkAddr := XPLMI_PMCRAM_CHUNK_MEMORY
                  nextChunkAddr := XPLMI_PMCRAM_CHUNK_MEMORY
                  blockNum := 1
                  processedLen := XLOADER_SECURE_CHUNK_SIZE
                  remainingDataLen := size
                  isNextChunkCopyStarted := false
                  isCdo := isCdo
                  secureData := XPLMI_PMCRAM_CHUNK_MEMORY
                  secureDataLen := XLOADER_SECURE_CHUNK_SIZE - XLOADER_SHA3_LEN
                  nextBlkAddr := flash + dataOfst * XIH_PRTN_WORD_LEN +
                    XLOADER_SECURE_CHUNK_SIZE
                  flashOfstAddr := flash
                  dataWordOfst := dataOfst }
          loadAddr := dest + (XLOADER_SECURE_CHUNK_SIZE - XLOADER_SHA3_LEN)
          len := size - XLOADER_SECURE_CHUNK_SIZE
          evs := [Ev.copy (flash + dataOfst * XIH_PRTN_WORD_LEN)
                    XPLMI_PMCRAM_CHUNK_MEMORY XLOADER_SECURE_CHUNK_SIZE
                    CopyState.blk] ++
                 (if isCdo = true then []
                  else [Ev.dmaXfr XPLMI_PMCRAM_CHUNK_MEMORY dest
                    ((XLOADER_SECURE_CHUNK_SIZE - XLOADER_SHA3_LEN) /
                      XIH_PRTN_WORD_LEN)]) ++
                 [Ev.verify (if isCdo = true then XPLMI_PMCRAM_CHUNK_MEMORY
                    else dest)
                    (XLOADER_SECURE_CHUNK_SIZE - XLOADER_SHA3_LEN) false] } := by
  intro isCdo flash dataOfst dest size h
  unfold secureCopyStep XLoader_ProcessChecksumPrtn XLoader_SecureChunkCopy
    XLoader_StartNextChunkCopy initSP
  cases isCdo <;> simp [h]

/-- The events and post-state slice of any middle iteration of the Copy
Driver (a chunk that is neither the first nor the last): a blocking copy
of the chunk from the recorded next-block address into the active buffer,
then — since `BlockNum` is non-zero — the non-blocking initiate of the
next chunk's transfer into the other buffer, the optional bulk DMA, and
finally the chunk's verification.  The initiate precedes the verification
within the iteration. -/
theorem secureCopyStep_mid_evs :
    ∀ (sp : SP) (la len : Nat),
      sp.blockNum ≠ 0 →
      sp.isNextChunkCopyStarted = false →
      ¬ len ≤ XLOADER_SECURE_CHUNK_SIZE →
      (secureCopyStep sp la len).evs =
        [Ev.copy sp.nextBlkAddr sp.chunkAddr XLOADER_SECURE_CHUNK_SIZE
           CopyState.blk,
         Ev.copy (sp.nextBlkAddr + XLOADER_SECURE_CHUNK_SIZE)
           (if sp.chunkAddr = XPLMI_PMCRAM_CHUNK_MEMORY
            then XPLMI_PMCRAM_CHUNK_MEMORY_1 else XPLMI_PMCRAM_CHUNK_MEMORY)
           (min (len - XLOADER_SECURE_CHUNK_SIZE) XLOADER_SECURE_CHUNK_SIZE)
           CopyState.initiate] ++
        (if sp.isCdo = true then []
         else [Ev.dmaXfr sp.chunkAddr la
           ((XLOADER_SECURE_CHUNK_SIZE - XLOADER_SHA3_LEN) /
             XIH_PRTN_WORD_LEN)]) ++
        [Ev.verify (if sp.isCdo = true then sp.chunkAddr else la)
           (XLOADER_SECURE_CHUNK_SIZE - XLOADER_SHA3_LEN) false] := by
  intro sp la len hb hf h
  unfold secureCopyStep XLoader_ProcessChecksumPrtn XLoader_SecureChunkCopy
    XLoader_StartNextChunkCopy
  by_cases hc : sp.isCdo = true <;> simp [hb, hf, hc, h, Nat.min_def]

/-- The remaining length after one iteration: the iteration consumes
`min(remaining, chunk size)` bytes. -/
theorem secureCopyStep_len :
    ∀ (sp : SP) (loadAddr len : Nat),
      (secureCopyStep sp loadAddr len).len =
        len - (if len ≤ XLOADER_SECURE_CHUNK_SIZE then len
          else XLOADER_SECURE_CHUNK_SIZE) := by
  intro sp loadAddr len
  unfold secureCopyStep
  simp [XLoader_ProcessChecksumPrtn_processedLen]

/-- C3, amended: for every checksum-mode partition of at least 3 chunks,
the third chunk's device transfer is initiated (during the second chunk's
iteration) before the second chunk's hash verification completes — the
trace contains the initiate of the third chunk after exactly one
verification (the first chunk's) and before the second chunk's
verification; and a wait-phase device call is issued only when the
next-chunk-copy-started flag was previously set by an initiate call. -/
theorem XLoader_pipeline_prefetch_order :
    ∀ (isCdo : Bool) (flash dataOfst dest size : Nat),
      2 * XLOADER_SECURE_CHUNK_SIZE < size →
      ((∃ A B,
          checksumTrace isCdo flash dataOfst dest size =
            A ++ Ev.copy (flash + dataOfst * XIH_PRTN_WORD_LEN +
                XLOADER_SECURE_CHUNK_SIZE + XLOADER_SECURE_CHUNK_SIZE)
              XPLMI_PMCRAM_CHUNK_MEMORY_1
              (min (size - XLOADER_SECURE_CHUNK_SIZE -
                XLOADER_SECURE_CHUNK_SIZE) XLOADER_SECURE_CHUNK_SIZE)
              CopyState.initiate :: B ∧
          numVerify A = 1 ∧
          (∃ Bc Bd,
            B = Bc ++ Ev.verify
                (if isCdo = true then XPLMI_PMCRAM_CHUNK_MEMORY
                 else dest + (XLOADER_SECURE_CHUNK_SIZE - XLOADER_SHA3_LEN))
                (XLOADER_SECURE_CHUNK_SIZE - XLOADER_SHA3_LEN) false :: Bd ∧
            numVerify Bc = 0)) ∧
       waitDiscipline false (checksumTrace isCdo flash dataOfst dest size) =
         true) := by
  intro isCdo flash dataOfst dest size h
  have hCval : XLOADER_SECURE_CHUNK_SIZE = 0x8000 := rfl
  have h1 : ¬ size ≤ XLOADER_SECURE_CHUNK_SIZE := by omega
  have h2 : ¬ size - XLOADER_SECURE_CHUNK_SIZE ≤ XLOADER_SECURE_CHUNK_SIZE := by
    omega
  have h0 : size ≠ 0 := by omega
  have hst1 := secureCopyStep_first isCdo flash dataOfst dest size h1
  obtain ⟨spF, r1, htrA, htrB⟩ := XLoader_SecureCopy_trace_cons (size - 1)
    (initSP isCdo flash dataOfst) dest size h0
    (by rw [secureCopyStep_len, if_neg h1]; omega)
  rw [show size - 1 + 1 = size from by omega] at htrA
  have hlen1 : (secureCopyStep (initSP isCdo flash dataOfst) dest size).len =
      size - XLOADER_SECURE_CHUNK_SIZE := by
    rw [secureCopyStep_len, if_neg h1]
  obtain ⟨spF2, r2, htrC, htrD⟩ := XLoader_SecureCopy_trace_cons (size - 2)
    (secureCopyStep (initSP isCdo flash dataOfst) dest size).sp
    (secureCopyStep (initSP isCdo flash dataOfst) dest size).loadAddr
    (secureCopyStep (initSP isCdo flash dataOfst) dest size).len
    (by rw [hlen1]; omega)
    (by rw [secureCopyStep_len, hlen1, if_neg h2]; omega)
  rw [show size - 2 + 1 = size - 1 from by omega] at htrC
  rw [htrB] at htrC
  simp only [Option.some.injEq, Prod.mk.injEq] at htrC
  obtain ⟨-, heqR⟩ := htrC
  have htrace : checksumTrace isCdo flash dataOfst dest size =
      (secureCopyStep (initSP isCdo flash dataOfst) dest size).evs ++
      ((secureCopyStep
          (secureCopyStep (initSP isCdo flash dataOfst) dest size).sp
          (secureCopyStep (initSP isCdo flash dataOfst) dest size).loadAddr
          (secureCopyStep (initSP isCdo flash dataOfst) dest size).len).evs ++
        r2) := by
    unfold checksumTrace
    rw [htrA, heqR]
  have hwd : waitDiscipline false
      (checksumTrace isCdo flash dataOfst dest size) = true := by
    unfold checksumTrace
    rw [htrA]
    exact waitDiscipline_loop size (initSP isCdo flash dataOfst) dest size
      spF _ htrA
  refine ⟨?_, hwd⟩
  have hmid := secureCopyStep_mid_evs
    (secureCopyStep (initSP isCdo flash dataOfst) dest size).sp
    (secureCopyStep (initSP isCdo flash dataOfst) dest size).loadAddr
    (secureCopyStep (initSP isCdo flash dataOfst) dest size).len
    (by rw [hst1]; dsimp only []; omega)
    (by rw [hst1])
    (by rw [hlen1]; exact h2)
  rw [hlen1] at hmid
  rw [hst1] at hmid htrace
  dsimp only [] at hmid htrace
  rw [hmid] at htrace
  cases isCdo with
  | false =>
    simp only [if_neg (by decide : ¬ (false = true))] at htrace ⊢
    refine ⟨[Ev.copy (flash + dataOfst * XIH_PRTN_WORD_LEN)
        XPLMI_PMCRAM_CHUNK_MEMORY XLOADER_SECURE_CHUNK_SIZE CopyState.blk,
      Ev.dmaXfr XPLMI_PMCRAM_CHUNK_MEMORY dest
        ((XLOADER_SECURE_CHUNK_SIZE - XLOADER_SHA3_LEN) / XIH_PRTN_WORD_LEN),
      Ev.verify dest (XLOADER_SECURE_CHUNK_SIZE - XLOADER_SHA3_LEN) false,
      Ev.copy (flash + dataOfst * XIH_PRTN_WORD_LEN +
          XLOADER_SECURE_CHUNK_SIZE) XPLMI_PMCRAM_CHUNK_MEMORY
        XLOADER_SECURE_CHUNK_SIZE CopyState.blk],
      Ev.dmaXfr XPLMI_PMCRAM_CHUNK_MEMORY
          (dest + (XLOADER_SECURE_CHUNK_SIZE - XLOADER_SHA3_LEN))
          ((XLOADER_SECURE_CHUNK_SIZE - XLOADER_SHA3_LEN) /
            XIH_PRTN_WORD_LEN) ::
        Ev.verify (dest + (XLOADER_SECURE_CHUNK_SIZE - XLOADER_SHA3_LEN))
          (XLOADER_SECURE_CHUNK_SIZE - XLOADER_SHA3_LEN) false :: r2,
      ?_, by simp [numVerify],
      ⟨[Ev.dmaXfr XPLMI_PMCRAM_CHUNK_MEMORY
          (dest + (XLOADER_SECURE_CHUNK_SIZE - XLOADER_SHA3_LEN))
          ((XLOADER_SECURE_CHUNK_SIZE - XLOADER_SHA3_LEN) /
            XIH_PRTN_WORD_LEN)], r2, rfl, by simp [numVerify]⟩⟩
    rw [htrace]
    simp
  | true =>
    simp only [if_pos rfl] at htrace ⊢
    refine ⟨[Ev.copy (flash + dataOfst * XIH_PRTN_WORD_LEN)
        XPLMI_PMCRAM_CHUNK_MEMORY XLOADER_SECURE_CHUNK_SIZE CopyState.blk,
      Ev.verify XPLMI_PMCRAM_CHUNK_MEMORY
        (XLOADER_SECURE_CHUNK_SIZE - XLOADER_SHA3_LEN) false,
      Ev.copy (flash + dataOfst * XIH_PRTN_WORD_LEN +
          XLOADER_SECURE_CHUNK_SIZE) XPLMI_PMCRAM_CHUNK_MEMORY
        XLOADER_SECURE_CHUNK_SIZE CopyState.blk],
      Ev.verify XPLMI_PMCRAM_CHUNK_MEMORY
          (XLOADER_SECURE_CHUNK_SIZE - XLOADER_SHA3_LEN) false :: r2,
      ?_, by simp [numVerify],
      ⟨[], r2, rfl, by simp [numVerify]⟩⟩
    rw [htrace]
    simp

/-- C3, counterexample: a checksum-mode partition of exactly 2 chunks
(one maximal chunk plus 100 bytes) performs two hash verifications but
never issues any non-blocking initiate — in particular the second chunk's
transfer is not initiated before the first chunk's verification
completes (prefetch only begins once `BlockNum` is non-zero, so the
second chunk is fetched by a blocking copy after the first chunk's
verification), refuting the claim for partitions of ≥ 2 chunks. -/
theorem XLoader_pipeline_no_first_prefetch_cex :
    numVerify (checksumTrace false 0 0 0 32868) = 2 ∧
    hasInitiate (checksumTrace false 0 0 0 32868) = false := by
  decide

/-- C3, witness for the amended theorem at a concrete 3-chunk
partition. -/
theorem XLoader_pipeline_prefetch_order_witness :
    2 * XLOADER_SECURE_CHUNK_SIZE < 70000 ∧
    waitDiscipline false (checksumTrace false 0 0 0 70000) = true :=
  ⟨by decide,
   (XLoader_pipeline_prefetch_order false 0 0 0 70000 (by decide)).2⟩
